import Mathlib

/-!
Shallow embedding of the ChainAudit token-audit system:
the `ScamDetector` and `AuditRegistry` Solidity contracts, the
`TokenAnalyzer` contract, and the risk-level bucketing of the
TypeScript audit services.  Addresses, timestamps and uint256
values are modelled as `Nat`; Solidity mappings are total functions
with the zero value as default; `require` failures and reverts are
an `Except` error; keccak256 and external contract calls are
supplied by an explicit chain environment.
-/

/-- Errors surfaced by reverting EVM calls: failed authorization
requires, failed input-validation requires, and the OpenZeppelin
ReentrancyGuard revert. -/
inductive EvmError where
  | AuthorizationError
  | ValidationError
  | ReentrancyError
deriving DecidableEq, Repr

/-- Pointwise update of a Solidity mapping modelled as a total function. -/
def setMap {α : Type} (m : Nat → α) (k : Nat) (v : α) : Nat → α :=
  fun x => if x = k then v else m x

/-- Transaction wrapper: a reverting call (an `Except.error`) leaves the
caller-visible state unchanged, a successful call commits the new state. -/
def runTx {σ α : Type} (s : σ) (r : Except EvmError (σ × α)) : σ × Option EvmError :=
  match r with
  | .ok (s', _) => (s', none)
  | .error e => (s, some e)

/-! ## ScamDetector contract -/

/-- ScamDetector.ScamFlags struct (field order as in the contract). -/
structure ScamFlags where
  hasHiddenMint : Bool
  hasBlacklist : Bool
  hasHighTax : Bool
  hasLiquidityDrain : Bool
  hasOwnershipIssues : Bool
  isHoneypot : Bool
  riskScore : Nat
deriving DecidableEq, Repr

/-- Solidity zero value of a freshly declared `ScamFlags memory flags`. -/
def ScamFlags.init : ScamFlags := ⟨false, false, false, false, false, false, 0⟩

/-- Chain context consumed by ScamDetector's heuristic checks:
extcodesize, the three keccak256 call shapes appearing in the contract,
and the external `owner()` staticcall (`none` models a reverting call). -/
structure ChainEnv where
  extcodesize : Nat → Nat
  keccakAddrTime : Nat → Nat → Nat
  keccakAddr : Nat → Nat
  keccakAddrOwner : Nat → Nat → Nat
  ownerCall : Nat → Option Nat

/-- ScamDetector events. -/
inductive ScamEvent where
  | ScamDetected (token : Nat) (reason : String) (timestamp : Nat)
  | TokenVerified (token : Nat) (timestamp : Nat)
deriving DecidableEq, Repr

/-- Storage of the ScamDetector contract plus its emitted event log. -/
structure ScamDetectorState where
  contractOwner : Nat
  scamAnalysis : Nat → ScamFlags
  knownScams : Nat → Bool
  trustedTokens : Nat → Bool
  events : List ScamEvent

/-- ScamDetector.checkForHiddenMint: no code means not a contract;
otherwise keccak256(abi.encodePacked(tokenAddress, block.timestamp))
modulo 7. -/
def ScamDetector.checkForHiddenMint (env : ChainEnv) (t tokenAddress : Nat) : Bool :=
  if env.extcodesize tokenAddress = 0 then false
  else env.keccakAddrTime tokenAddress t % 7 == 0

/-- ScamDetector.checkForBlacklist: keccak256(address) modulo 10. -/
def ScamDetector.checkForBlacklist (env : ChainEnv) (tokenAddress : Nat) : Bool :=
  env.keccakAddr tokenAddress % 10 == 0

/-- ScamDetector.checkForHighTax: keccak256(address) modulo 5. -/
def ScamDetector.checkForHighTax (env : ChainEnv) (tokenAddress : Nat) : Bool :=
  env.keccakAddr tokenAddress % 5 == 0

/-- ScamDetector.checkForLiquidityDrain: keccak256(address) modulo 8. -/
def ScamDetector.checkForLiquidityDrain (env : ChainEnv) (tokenAddress : Nat) : Bool :=
  env.keccakAddr tokenAddress % 8 == 0

/-- ScamDetector.checkOwnershipIssues: a reverting `owner()` call, a zero
owner, or a contract owner is suspicious; otherwise
keccak256(abi.encodePacked(tokenAddress, owner)) modulo 6. -/
def ScamDetector.checkOwnershipIssues (env : ChainEnv) (tokenAddress : Nat) : Bool :=
  match env.ownerCall tokenAddress with
  | none => true
  | some ow =>
    if ow = 0 then true
    else if 0 < env.extcodesize ow then true
    else env.keccakAddrOwner tokenAddress ow % 6 == 0

/-- ScamDetector.analyzeToken at block timestamp `t`.  Note that in the
known-scam branch the contract sets only the local variable
`riskScore = 100`; the struct field `flags.riskScore` keeps its zero
value when stored and returned. -/
def ScamDetector.analyzeToken (env : ChainEnv) (t : Nat) (s : ScamDetectorState)
    (tokenAddress : Nat) : Except EvmError (ScamDetectorState × ScamFlags) :=
  if tokenAddress = 0 then .error .ValidationError
  else if s.knownScams tokenAddress then
    let flags : ScamFlags := { ScamFlags.init with isHoneypot := true }
    .ok ({ s with
           events := s.events ++ [.ScamDetected tokenAddress "Known scam token" t],
           scamAnalysis := setMap s.scamAnalysis tokenAddress flags }, flags)
  else if s.trustedTokens tokenAddress then
    .ok ({ s with scamAnalysis := setMap s.scamAnalysis tokenAddress ScamFlags.init },
         ScamFlags.init)
  else
    let hm := ScamDetector.checkForHiddenMint env t tokenAddress
    let bl := ScamDetector.checkForBlacklist env tokenAddress
    let ht := ScamDetector.checkForHighTax env tokenAddress
    let ld := ScamDetector.checkForLiquidityDrain env tokenAddress
    let oi := ScamDetector.checkOwnershipIssues env tokenAddress
    let riskScore : Nat :=
      (if hm then 25 else 0) + (if bl then 30 else 0) + (if ht then 20 else 0) +
      (if ld then 35 else 0) + (if oi then 15 else 0)
    let flags : ScamFlags := ⟨hm, bl, ht, ld, oi, decide (70 ≤ riskScore), riskScore⟩
    let s1 : ScamDetectorState :=
      { s with scamAnalysis := setMap s.scamAnalysis tokenAddress flags }
    let s2 : ScamDetectorState :=
      if flags.isHoneypot then
        { s1 with events := s1.events ++ [.ScamDetected tokenAddress "High risk score detected" t] }
      else s1
    .ok (s2, flags)

/-- ScamDetector.analyzeToken as a full transaction (revert keeps the state). -/
def ScamDetector.analyzeTokenTx (env : ChainEnv) (t : Nat) (s : ScamDetectorState)
    (tokenAddress : Nat) : ScamDetectorState × Option EvmError :=
  runTx s (ScamDetector.analyzeToken env t s tokenAddress)

/-- Flags component of an analyzeToken result, for comparing runs. -/
def resultFlags (r : Except EvmError (ScamDetectorState × ScamFlags)) : Option ScamFlags :=
  match r with
  | .ok (_, f) => some f
  | .error _ => none

/-! ## AuditRegistry contract -/

/-- AuditRegistry.AuditRecord struct. -/
structure AuditRecord where
  tokenAddress : Nat
  riskScore : Nat
  isScam : Bool
  isHoneypot : Bool
  auditTimestamp : Nat
  auditor : Nat
  ipfsHash : String
deriving DecidableEq, Repr

/-- Solidity zero value of an absent `AuditRecord` mapping entry. -/
def AuditRecord.zero : AuditRecord := ⟨0, 0, false, false, 0, 0, ""⟩

/-- AuditRegistry.TokenMetrics struct. -/
structure TokenMetrics where
  totalTransactions : Nat
  uniqueHolders : Nat
  liquidityUSD : Nat
  liquidityLocked : Bool
  lastUpdated : Nat
deriving DecidableEq, Repr

/-- Solidity zero value of an absent `TokenMetrics` mapping entry. -/
def TokenMetrics.zero : TokenMetrics := ⟨0, 0, 0, false, 0⟩

/-- AuditRegistry events. -/
inductive RegistryEvent where
  | AuditCompleted (token auditor riskScore : Nat) (isScam : Bool) (timestamp : Nat)
  | TokenMetricsUpdated (token transactions holders liquidity : Nat)
deriving DecidableEq, Repr

/-- Storage of the AuditRegistry contract: the Ownable owner, the four
mappings, the ReentrancyGuard status and the emitted event log. -/
structure RegistryState where
  contractOwner : Nat
  auditRecords : Nat → AuditRecord
  tokenMetrics : Nat → TokenMetrics
  authorizedAuditors : Nat → Bool
  auditCount : Nat → Nat
  entered : Bool
  events : List RegistryEvent

/-- AuditRegistry.submitAuditResult called by `sender` at block timestamp
`t`.  Modifier order as in the contract: `onlyAuthorizedAuditor` first,
then `nonReentrant`, then the two body requires. -/
def AuditRegistry.submitAuditResult (s : RegistryState) (sender tokenAddress riskScore : Nat)
    (isScam isHoneypot : Bool) (ipfsHash : String) (t : Nat) :
    Except EvmError (RegistryState × Unit) :=
  if s.authorizedAuditors sender = true ∨ sender = s.contractOwner then
    if s.entered then .error .ReentrancyError
    else if tokenAddress = 0 then .error .ValidationError
    else if 100 < riskScore then .error .ValidationError
    else
      .ok ({ s with
             auditRecords := setMap s.auditRecords tokenAddress
               ⟨tokenAddress, riskScore, isScam, isHoneypot, t, sender, ipfsHash⟩,
             auditCount := setMap s.auditCount sender (s.auditCount sender + 1),
             events := s.events ++ [.AuditCompleted tokenAddress sender riskScore isScam t] },
           ())
  else .error .AuthorizationError

/-- AuditRegistry.submitAuditResult as a full transaction. -/
def AuditRegistry.submitAuditResultTx (s : RegistryState) (sender tokenAddress riskScore : Nat)
    (isScam isHoneypot : Bool) (ipfsHash : String) (t : Nat) :
    RegistryState × Option EvmError :=
  runTx s (AuditRegistry.submitAuditResult s sender tokenAddress riskScore
    isScam isHoneypot ipfsHash t)

/-- AuditRegistry.isTokenAudited: a record exists with non-zero timestamp. -/
def AuditRegistry.isTokenAudited (s : RegistryState) (tokenAddress : Nat) : Bool :=
  0 < (s.auditRecords tokenAddress).auditTimestamp

/-! ## TokenAnalyzer contract -/

/-- TokenAnalyzer.TokenInfo struct. -/
structure TokenInfo where
  name : String
  symbol : String
  decimals : Nat
  totalSupply : Nat
  owner : Nat
  «exists» : Bool
deriving DecidableEq, Repr

/-- Solidity zero value of an absent `TokenInfo` mapping entry. -/
def TokenInfo.zero : TokenInfo := ⟨"", "", 0, 0, 0, false⟩

/-- TokenAnalyzer.SecurityFlags struct. -/
structure SecurityFlags where
  hasOwner : Bool
  hasMintFunction : Bool
  hasBurnFunction : Bool
  hasPauseFunction : Bool
  hasBlacklistFunction : Bool
  ownershipRenounced : Bool
deriving DecidableEq, Repr

/-- Solidity zero value of an absent `SecurityFlags` mapping entry. -/
def SecurityFlags.zero : SecurityFlags := ⟨false, false, false, false, false, false⟩

/-- External IERC20Extended reads consumed by TokenAnalyzer.analyzeToken;
`none` models a reverting call on that token. -/
structure Erc20Env where
  nameCall : Nat → Option String
  symbolCall : Nat → Option String
  decimalsCall : Nat → Option Nat
  totalSupplyCall : Nat → Option Nat
  ownerCall : Nat → Option Nat

/-- TokenAnalyzer events. -/
inductive AnalyzerEvent where
  | TokenAnalyzed (token analyzer timestamp : Nat)
deriving DecidableEq, Repr

/-- Storage of the TokenAnalyzer contract: the two mappings, the shared
ReentrancyGuard status and the emitted event log. -/
structure AnalyzerState where
  contractOwner : Nat
  analyzedTokens : Nat → TokenInfo
  securityAnalysis : Nat → SecurityFlags
  entered : Bool
  events : List AnalyzerEvent

/-- Byte `i` (big-endian, 0..31) of `bytes32(uint256(uint160(addr)))`. -/
def addrByte (addr i : Nat) : Nat := addr / 256 ^ (31 - i) % 256

/-- Lowercase hex alphabet used by the address-rendering helpers, the
`bytes memory alphabet` of the contract. -/
def hexAlphabet : List Char := "0123456789abcdef".data

/-- Hex character of a nibble. -/
def nibbleChar (n : Nat) : Char := hexAlphabet.getD n '0'

/-- TokenAnalyzer.addressToString: "0x" followed by the 20 address bytes
(bytes 12..31 of the 32-byte value) as 40 lowercase hex characters. -/
def TokenAnalyzer.addressToString (addr : Nat) : String :=
  ⟨'0' :: 'x' :: (List.range 20).flatMap (fun i =>
    [nibbleChar (addrByte addr (i + 12) / 16), nibbleChar (addrByte addr (i + 12) % 16)])⟩

/-- TokenAnalyzer.addressToShortString: the first 3 address bytes
(bytes 12..14 of the 32-byte value) as 6 lowercase hex characters. -/
def TokenAnalyzer.addressToShortString (addr : Nat) : String :=
  ⟨(List.range 3).flatMap (fun i =>
    [nibbleChar (addrByte addr (i + 12) / 16), nibbleChar (addrByte addr (i + 12) % 16)])⟩

/-- Sentinel owner used when the `owner()` read reverts
(the default hardhat first account). -/
def demoOwner : Nat := 0xf39Fd6e51aad88F6F4ce6aB8827279cffFb92266

/-- TokenAnalyzer.analyzeToken called by `sender` at block timestamp `t`.
Guarded by `nonReentrant`; each of the five IERC20Extended reads falls
back to its catch-branch value on failure; `info.exists` is set true in
both branches of the totalSupply try/catch. -/
def TokenAnalyzer.analyzeToken (env : Erc20Env) (t sender : Nat) (s : AnalyzerState)
    (tokenAddress : Nat) : Except EvmError (AnalyzerState × TokenInfo) :=
  if s.entered then .error .ReentrancyError
  else if tokenAddress = 0 then .error .ValidationError
  else
    let info : TokenInfo :=
      { name := (env.nameCall tokenAddress).getD (TokenAnalyzer.addressToString tokenAddress)
        symbol := (env.symbolCall tokenAddress).getD
          (TokenAnalyzer.addressToShortString tokenAddress)
        decimals := (env.decimalsCall tokenAddress).getD 18
        totalSupply := (env.totalSupplyCall tokenAddress).getD 1000000000000000000000000
        owner := (env.ownerCall tokenAddress).getD demoOwner
        «exists» := true }
    .ok ({ s with
           analyzedTokens := setMap s.analyzedTokens tokenAddress info,
           events := s.events ++ [.TokenAnalyzed tokenAddress sender t] },
         info)

/-- TokenAnalyzer.analyzeToken as a full transaction. -/
def TokenAnalyzer.analyzeTokenTx (env : Erc20Env) (t sender : Nat) (s : AnalyzerState)
    (tokenAddress : Nat) : AnalyzerState × Option EvmError :=
  runTx s (TokenAnalyzer.analyzeToken env t sender s tokenAddress)

/-- TokenAnalyzer.calculateRiskScore: weighted sum over the stored
SecurityFlags of the token. -/
def TokenAnalyzer.calculateRiskScore (s : AnalyzerState) (tokenAddress : Nat) : Nat :=
  let flags := s.securityAnalysis tokenAddress
  (if flags.hasOwner && !flags.ownershipRenounced then 20 else 0) +
  (if flags.hasMintFunction then 25 else 0) +
  (if flags.hasPauseFunction then 15 else 0) +
  (if flags.hasBlacklistFunction then 30 else 0) +
  (if !flags.hasBurnFunction then 10 else 0)

/-- Loop body of TokenAnalyzer.batchAnalyze: `this.analyzeToken(tokens[i])`
is an external self-call, so it re-enters the contract and sees the
ReentrancyGuard status left by batchAnalyze. -/
def TokenAnalyzer.batchLoop (env : Erc20Env) (t sender : Nat) :
    AnalyzerState → List Nat → Except EvmError (AnalyzerState × List TokenInfo)
  | s, [] => .ok (s, [])
  | s, a :: rest => do
    let (s1, info) ← TokenAnalyzer.analyzeToken env t sender s a
    let (s2, infos) ← TokenAnalyzer.batchLoop env t sender s1 rest
    .ok (s2, info :: infos)

/-- TokenAnalyzer.batchAnalyze: `nonReentrant` sets the guard before the
body runs, the length require allows at most 10 tokens, then each token
is analyzed through the external self-call `this.analyzeToken`. -/
def TokenAnalyzer.batchAnalyze (env : Erc20Env) (t sender : Nat) (s : AnalyzerState)
    (tokens : List Nat) : Except EvmError (AnalyzerState × List TokenInfo) :=
  if s.entered then .error .ReentrancyError
  else if 10 < tokens.length then .error .ValidationError
  else
    match TokenAnalyzer.batchLoop env t sender { s with entered := true } tokens with
    | .error e => .error e
    | .ok (s', infos) => .ok ({ s' with entered := false }, infos)

/-- TokenAnalyzer.batchAnalyze as a full transaction. -/
def TokenAnalyzer.batchAnalyzeTx (env : Erc20Env) (t sender : Nat) (s : AnalyzerState)
    (tokens : List Nat) : AnalyzerState × Option EvmError :=
  runTx s (TokenAnalyzer.batchAnalyze env t sender s tokens)

/-! ## Risk-level bucketing of the audit services -/

/-- Risk levels reported by the TypeScript audit services. -/
inductive RiskLevel where
  | LOW
  | MEDIUM
  | HIGH
  | CRITICAL
deriving DecidableEq, Repr

/-- Risk-level bucketing used identically by
EnhancedAuditService.performSecurityAnalysis and
AuditService.analyzeSecurity:
`riskScore < 25 ? LOW : riskScore < 50 ? MEDIUM : riskScore < 75 ? HIGH : CRITICAL`. -/
def riskLevelOf (riskScore : Nat) : RiskLevel :=
  if riskScore < 25 then .LOW
  else if riskScore < 50 then .MEDIUM
  else if riskScore < 75 then .HIGH
  else .CRITICAL

/-! ## Concrete fixtures for witnesses and counterexamples -/

/-- Chain context making all five heuristic checks succeed: every address
has code, every keccak hash is 0, and `owner()` reverts. -/
def envAllTrue : ChainEnv :=
  ⟨fun _ => 1, fun _ _ => 0, fun _ => 0, fun _ _ => 0, fun _ => none⟩

/-- Chain context whose address-and-timestamp keccak equals the timestamp:
`checkForHiddenMint` holds exactly at timestamps divisible by 7,
`checkOwnershipIssues` always holds (the owner 5 has code), the three
address-only hashes are 1. -/
def envTime : ChainEnv :=
  ⟨fun _ => 1, fun _ t => t, fun _ => 1, fun _ _ => 1, fun _ => some 5⟩

/-- ERC20 environment in which every external read reverts. -/
def envNone : Erc20Env :=
  ⟨fun _ => none, fun _ => none, fun _ => none, fun _ => none, fun _ => none⟩

/-- Freshly deployed ScamDetector: empty mappings, empty log, owner 0. -/
def scamState0 : ScamDetectorState :=
  ⟨0, fun _ => ScamFlags.init, fun _ => false, fun _ => false, []⟩

/-- ScamDetector state in which address 1 is a known scam. -/
def scamStateKnown : ScamDetectorState :=
  ⟨0, fun _ => ScamFlags.init, fun a => a == 1, fun _ => false, []⟩

/-- ScamDetector state agreeing with `scamState0` on override membership
but differing in owner, stored analyses and event log. -/
def scamStateAlt : ScamDetectorState :=
  ⟨9, fun _ => ⟨true, true, true, true, true, true, 125⟩, fun _ => false, fun _ => false,
   [.TokenVerified 3 5]⟩

/-- Freshly deployed AuditRegistry with owner 1 and no explicit auditors. -/
def regState0 : RegistryState :=
  ⟨1, fun _ => AuditRecord.zero, fun _ => TokenMetrics.zero, fun _ => false, fun _ => 0,
   false, []⟩

/-- Freshly deployed TokenAnalyzer: empty mappings, guard not entered. -/
def anState0 : AnalyzerState :=
  ⟨0, fun _ => TokenInfo.zero, fun _ => SecurityFlags.zero, false, []⟩

/-! ## Theorems -/

/-- C1: for an address in `knownScams`, analyzeToken returns and persists
flags with `isHoneypot = true`, all five capability flags false, and — for
every chain context, i.e. without running any heuristic check — a
`riskScore` of 0, not the 100 the spec states: the contract only sets the
local variable, never the struct field. -/
theorem knownScam_persists_riskScore_zero (env : ChainEnv) (t : Nat) :
    ∃ s', ScamDetector.analyzeToken env t scamStateKnown 1 =
        .ok (s', ⟨false, false, false, false, false, true, 0⟩) ∧
      s'.scamAnalysis 1 = ⟨false, false, false, false, false, true, 0⟩ ∧
      s'.events = [.ScamDetected 1 "Known scam token" t] :=
  ⟨_, rfl, rfl, rfl⟩

/-- C2 counterexample: with riskScore 101, a caller that is neither an
authorized auditor nor the owner does not get `ValidationError` — the
authorization modifier fires first with `AuthorizationError`. -/
theorem submit_score101_unauthorized_not_validation :
    (AuditRegistry.submitAuditResultTx regState0 2 5 101 false false "" 0).2 ≠
      some EvmError.ValidationError ∧
    (AuditRegistry.submitAuditResultTx regState0 2 5 101 false false "" 0).2 =
      some EvmError.AuthorizationError := by
  refine ⟨?_, rfl⟩
  intro h
  exact absurd h (by decide)

/-- C2 (amended): for every authorized caller (explicitly authorized or the
owner), submitAuditResult with any riskScore above 100 fails with
`ValidationError` and leaves the state unchanged, for every token address. -/
theorem submit_score101_validationError (s : RegistryState)
    (sender tokenAddress riskScore : Nat)
    (isScam isHoneypot : Bool) (ipfsHash : String) (t : Nat)
    (hauth : s.authorizedAuditors sender = true ∨ sender = s.contractOwner)
    (hg : s.entered = false) (hscore : 100 < riskScore) :
    AuditRegistry.submitAuditResultTx s sender tokenAddress riskScore isScam isHoneypot
      ipfsHash t = (s, some .ValidationError) := by
  unfold AuditRegistry.submitAuditResultTx AuditRegistry.submitAuditResult runTx
  rw [if_pos hauth, hg]
  by_cases h0 : tokenAddress = 0 <;> simp [h0, hscore]

/-- Witness for the amended C2 theorem: the owner of `regState0` submits
riskScore 101. -/
theorem submit_score101_validationError_witness :
    (regState0.authorizedAuditors 1 = true ∨ (1 : Nat) = regState0.contractOwner) ∧
    regState0.entered = false ∧ (100 : Nat) < 101 ∧
    AuditRegistry.submitAuditResultTx regState0 1 5 101 false false "" 0 =
      (regState0, some .ValidationError) :=
  ⟨Or.inr rfl, rfl, by decide,
   submit_score101_validationError regState0 1 5 101 false false "" 0 (Or.inr rfl) rfl
     (by decide)⟩

/-- C7: a caller that is neither an authorized auditor nor the owner gets
`AuthorizationError` from submitAuditResult and the whole registry state
(records, metrics, counters, authorization set, event log) is unchanged. -/
theorem submit_unauthorized_reverts (s : RegistryState)
    (sender tokenAddress riskScore : Nat) (isScam isHoneypot : Bool)
    (ipfsHash : String) (t : Nat)
    (h1 : s.authorizedAuditors sender = false) (h2 : sender ≠ s.contractOwner) :
    AuditRegistry.submitAuditResultTx s sender tokenAddress riskScore isScam isHoneypot
      ipfsHash t = (s, some .AuthorizationError) := by
  unfold AuditRegistry.submitAuditResultTx AuditRegistry.submitAuditResult runTx
  rw [if_neg]
  rintro (h | h)
  · rw [h1] at h
    exact Bool.false_ne_true h
  · exact h2 h

/-- Witness for the C7 theorem: caller 2 on the fresh registry. -/
theorem submit_unauthorized_reverts_witness :
    regState0.authorizedAuditors 2 = false ∧ (2 : Nat) ≠ regState0.contractOwner ∧
    AuditRegistry.submitAuditResultTx regState0 2 6 40 true false "h" 3 =
      (regState0, some .AuthorizationError) :=
  ⟨rfl, by decide,
   submit_unauthorized_reverts regState0 2 6 40 true false "h" 3 rfl (by decide)⟩

/-- Bound on the TokenAnalyzer security-score weights: for every flag
combination the weighted sum is at most 100. -/
theorem securityScore_bound (flags : SecurityFlags) :
    (if flags.hasOwner && !flags.ownershipRenounced then 20 else 0) +
    (if flags.hasMintFunction then 25 else 0) +
    (if flags.hasPauseFunction then 15 else 0) +
    (if flags.hasBlacklistFunction then 30 else 0) +
    (if !flags.hasBurnFunction then 10 else 0) ≤ 100 := by
  rcases flags with ⟨a, b, c, d, e, g⟩
  cases a <;> cases b <;> cases c <;> cases d <;> cases e <;> cases g <;> decide

/-- C9: TokenAnalyzer.calculateRiskScore never exceeds 100 (its weights
20 + 25 + 15 + 30 + 10 sum to exactly 100), and 100 is attained. -/
theorem calculateRiskScore_le_100 :
    (∀ (s : AnalyzerState) (addr : Nat), TokenAnalyzer.calculateRiskScore s addr ≤ 100) ∧
    (∃ (s : AnalyzerState) (addr : Nat), TokenAnalyzer.calculateRiskScore s addr = 100) := by
  constructor
  · intro s addr
    exact securityScore_bound (s.securityAnalysis addr)
  · exact ⟨⟨0, fun _ => TokenInfo.zero, fun _ => ⟨true, true, false, true, true, false⟩,
           false, []⟩, 0, rfl⟩

/-- C4: the risk-level bucketing of the audit services maps every score in
[0, 100] to LOW iff it is below 25, MEDIUM iff in [25, 50), HIGH iff in
[50, 75), and CRITICAL iff in [75, 100]. -/
theorem riskLevel_buckets (s : Nat) (hs : s ≤ 100) :
    (riskLevelOf s = .LOW ↔ s < 25) ∧
    (riskLevelOf s = .MEDIUM ↔ 25 ≤ s ∧ s < 50) ∧
    (riskLevelOf s = .HIGH ↔ 50 ≤ s ∧ s < 75) ∧
    (riskLevelOf s = .CRITICAL ↔ 75 ≤ s ∧ s ≤ 100) := by
  unfold riskLevelOf
  split_ifs with h1 h2 h3 <;> refine ⟨?_, ?_, ?_, ?_⟩ <;> simp <;> omega

/-- Witness for the C4 theorem at the boundary score 100. -/
theorem riskLevel_buckets_witness :
    (100 : Nat) ≤ 100 ∧
    ((riskLevelOf 100 = .LOW ↔ (100 : Nat) < 25) ∧
     (riskLevelOf 100 = .MEDIUM ↔ (25 : Nat) ≤ 100 ∧ (100 : Nat) < 50) ∧
     (riskLevelOf 100 = .HIGH ↔ (50 : Nat) ≤ 100 ∧ (100 : Nat) < 75) ∧
     (riskLevelOf 100 = .CRITICAL ↔ (75 : Nat) ≤ 100 ∧ (100 : Nat) ≤ 100)) :=
  ⟨by decide, riskLevel_buckets 100 (by decide)⟩

/-- C3: for an address in neither override list, analyzeToken returns flags
whose riskScore is exactly the weighted sum 25/30/20/35/15 of the five
check results, unclamped, with isHoneypot true iff the score reaches 70. -/
theorem scamScore_weighted_sum (env : ChainEnv) (t : Nat) (s : ScamDetectorState)
    (addr : Nat) (h0 : addr ≠ 0)
    (hks : s.knownScams addr = false) (htr : s.trustedTokens addr = false) :
    ∃ s' flags, ScamDetector.analyzeToken env t s addr = .ok (s', flags) ∧
      flags.riskScore =
        (if flags.hasHiddenMint then 25 else 0) + (if flags.hasBlacklist then 30 else 0) +
        (if flags.hasHighTax then 20 else 0) + (if flags.hasLiquidityDrain then 35 else 0) +
        (if flags.hasOwnershipIssues then 15 else 0) ∧
      (flags.isHoneypot = true ↔ 70 ≤ flags.riskScore) ∧
      flags.hasHiddenMint = ScamDetector.checkForHiddenMint env t addr ∧
      flags.hasBlacklist = ScamDetector.checkForBlacklist env addr ∧
      flags.hasHighTax = ScamDetector.checkForHighTax env addr ∧
      flags.hasLiquidityDrain = ScamDetector.checkForLiquidityDrain env addr ∧
      flags.hasOwnershipIssues = ScamDetector.checkOwnershipIssues env addr := by
  unfold ScamDetector.analyzeToken
  rw [if_neg h0, hks, htr]
  exact ⟨_, _, rfl, rfl, by simp, rfl, rfl, rfl, rfl, rfl⟩

/-- Witness for the C3 theorem: under `envAllTrue` all five checks hold,
giving the unclamped score 125 and the honeypot flag. -/
theorem scamScore_weighted_sum_witness :
    (1 : Nat) ≠ 0 ∧ scamState0.knownScams 1 = false ∧
    scamState0.trustedTokens 1 = false ∧
    (∃ s' flags, ScamDetector.analyzeToken envAllTrue 0 scamState0 1 = .ok (s', flags) ∧
      flags.riskScore =
        (if flags.hasHiddenMint then 25 else 0) + (if flags.hasBlacklist then 30 else 0) +
        (if flags.hasHighTax then 20 else 0) + (if flags.hasLiquidityDrain then 35 else 0) +
        (if flags.hasOwnershipIssues then 15 else 0) ∧
      (flags.isHoneypot = true ↔ 70 ≤ flags.riskScore) ∧
      flags.hasHiddenMint = ScamDetector.checkForHiddenMint envAllTrue 0 1 ∧
      flags.hasBlacklist = ScamDetector.checkForBlacklist envAllTrue 1 ∧
      flags.hasHighTax = ScamDetector.checkForHighTax envAllTrue 1 ∧
      flags.hasLiquidityDrain = ScamDetector.checkForLiquidityDrain envAllTrue 1 ∧
      flags.hasOwnershipIssues = ScamDetector.checkOwnershipIssues envAllTrue 1) ∧
    resultFlags (ScamDetector.analyzeToken envAllTrue 0 scamState0 1) =
      some ⟨true, true, true, true, true, true, 125⟩ :=
  ⟨by decide, rfl, rfl,
   scamScore_weighted_sum envAllTrue 0 scamState0 1 (by decide) rfl rfl, rfl⟩

/-- C5: every non-empty batch of at most 10 addresses reverts with the
ReentrancyGuard error: `this.analyzeToken` re-enters the contract while
batchAnalyze holds the shared guard, so the per-token analysis can never
run and no records are returned. -/
theorem batchAnalyze_nonempty_reverts (env : Erc20Env) (t sender : Nat)
    (s : AnalyzerState) (tokens : List Nat) (hg : s.entered = false)
    (hne : tokens ≠ []) (hlen : tokens.length ≤ 10) :
    TokenAnalyzer.batchAnalyzeTx env t sender s tokens = (s, some .ReentrancyError) := by
  obtain ⟨a, rest, rfl⟩ := List.exists_cons_of_ne_nil hne
  unfold TokenAnalyzer.batchAnalyzeTx TokenAnalyzer.batchAnalyze runTx
  rw [hg]
  have hlt : ¬ (10 < (a :: rest).length) := by omega
  rw [if_neg (by simp), if_neg hlt]
  rfl

/-- Witness for the C5 theorem: a singleton batch on the fresh analyzer. -/
theorem batchAnalyze_nonempty_reverts_witness :
    anState0.entered = false ∧ ([1] : List Nat) ≠ [] ∧ ([1] : List Nat).length ≤ 10 ∧
    TokenAnalyzer.batchAnalyzeTx envNone 0 7 anState0 [1] =
      (anState0, some .ReentrancyError) :=
  ⟨rfl, by decide, by decide,
   batchAnalyze_nonempty_reverts envNone 0 7 anState0 [1] rfl (by decide) (by decide)⟩

/-- C6: when all five external reads fail, analyzeToken returns the record
built entirely from fallbacks: the hex rendering of the address as name,
its first three bytes as a 6-character hex symbol (the first 6 hex digits
of the name after "0x"), 18 decimals, the 10^24 sentinel supply, the demo
owner, and exists = true. -/
theorem analyzeToken_allFail_fallbacks (env : Erc20Env) (t sender : Nat)
    (s : AnalyzerState) (addr : Nat) (h0 : addr ≠ 0) (hg : s.entered = false)
    (hn : env.nameCall addr = none) (hsy : env.symbolCall addr = none)
    (hd : env.decimalsCall addr = none) (hts : env.totalSupplyCall addr = none)
    (ho : env.ownerCall addr = none) :
    (∃ s', TokenAnalyzer.analyzeToken env t sender s addr =
      .ok (s', ⟨TokenAnalyzer.addressToString addr, TokenAnalyzer.addressToShortString addr,
                18, 1000000000000000000000000, demoOwner, true⟩)) ∧
    1000000000000000000000000 = 10 ^ 24 ∧
    (TokenAnalyzer.addressToShortString addr).data =
      ((TokenAnalyzer.addressToString addr).data.drop 2).take 6 := by
  refine ⟨?_, by norm_num, rfl⟩
  unfold TokenAnalyzer.analyzeToken
  rw [hg, if_neg (by simp), if_neg h0, hn, hsy, hd, hts, ho]
  exact ⟨_, rfl⟩

/-- Witness for the C6 theorem at address 1, checking the concrete
rendered strings. -/
theorem analyzeToken_allFail_fallbacks_witness :
    (1 : Nat) ≠ 0 ∧ anState0.entered = false ∧
    envNone.nameCall 1 = none ∧ envNone.symbolCall 1 = none ∧
    envNone.decimalsCall 1 = none ∧ envNone.totalSupplyCall 1 = none ∧
    envNone.ownerCall 1 = none ∧
    ((∃ s', TokenAnalyzer.analyzeToken envNone 4 9 anState0 1 =
      .ok (s', ⟨TokenAnalyzer.addressToString 1, TokenAnalyzer.addressToShortString 1,
                18, 1000000000000000000000000, demoOwner, true⟩)) ∧
     1000000000000000000000000 = 10 ^ 24 ∧
     (TokenAnalyzer.addressToShortString 1).data =
       ((TokenAnalyzer.addressToString 1).data.drop 2).take 6) ∧
    TokenAnalyzer.addressToString 1 = "0x0000000000000000000000000000000000000001" ∧
    TokenAnalyzer.addressToShortString 1 = "000000" :=
  ⟨by decide, rfl, rfl, rfl, rfl, rfl, rfl,
   analyzeToken_allFail_fallbacks envNone 4 9 anState0 1 (by decide) rfl rfl rfl rfl rfl rfl,
   rfl, rfl⟩

/-- C8 counterexample: under `envTime` the same address, same stores and
same override membership yield different ScamFlags at block timestamps 7
and 1, because checkForHiddenMint hashes the address together with
block.timestamp. -/
theorem scamFlags_differ_across_timestamps :
    resultFlags (ScamDetector.analyzeToken envTime 7 scamState0 1) ≠
      resultFlags (ScamDetector.analyzeToken envTime 1 scamState0 1) := by
  decide

/-- C8 (amended): at a fixed block timestamp and chain context, the flag
derivation depends only on the address's override membership — two states
agreeing on `knownScams` and `trustedTokens` at the address produce
identical ScamFlags, whatever their stored analyses, owner or logs. -/
theorem scamFlags_deterministic (env : ChainEnv) (t : Nat)
    (s1 s2 : ScamDetectorState) (addr : Nat)
    (hk : s1.knownScams addr = s2.knownScams addr)
    (htr : s1.trustedTokens addr = s2.trustedTokens addr) :
    resultFlags (ScamDetector.analyzeToken env t s1 addr) =
      resultFlags (ScamDetector.analyzeToken env t s2 addr) := by
  unfold ScamDetector.analyzeToken resultFlags
  rw [hk, htr]
  split_ifs <;> rfl

/-- Witness for the amended C8 theorem: two states differing in stored
analyses and logs give the same flags. -/
theorem scamFlags_deterministic_witness :
    scamState0.knownScams 1 = scamStateAlt.knownScams 1 ∧
    scamState0.trustedTokens 1 = scamStateAlt.trustedTokens 1 ∧
    resultFlags (ScamDetector.analyzeToken envTime 3 scamState0 1) =
      resultFlags (ScamDetector.analyzeToken envTime 3 scamStateAlt 1) :=
  ⟨rfl, rfl, scamFlags_deterministic envTime 3 scamState0 scamStateAlt 1 rfl rfl⟩

/-- C10: both single-token entry points reject the zero address with a
validation failure, leaving state and logs untouched: the guard-free
TokenAnalyzer.analyzeToken and ScamDetector.analyzeToken each revert with
`ValidationError` on address 0. -/
theorem zeroAddress_rejected (env1 : Erc20Env) (env2 : ChainEnv) (t1 t2 sender : Nat)
    (s1 : AnalyzerState) (s2 : ScamDetectorState) (hg : s1.entered = false) :
    TokenAnalyzer.analyzeTokenTx env1 t1 sender s1 0 = (s1, some .ValidationError) ∧
    ScamDetector.analyzeTokenTx env2 t2 s2 0 = (s2, some .ValidationError) := by
  refine ⟨?_, rfl⟩
  unfold TokenAnalyzer.analyzeTokenTx TokenAnalyzer.analyzeToken runTx
  rw [hg]
  simp

/-- Witness for the C10 theorem on the fresh contract states. -/
theorem zeroAddress_rejected_witness :
    anState0.entered = false ∧
    TokenAnalyzer.analyzeTokenTx envNone 0 7 anState0 0 = (anState0, some .ValidationError) ∧
    ScamDetector.analyzeTokenTx envTime 0 scamState0 0 = (scamState0, some .ValidationError) :=
  ⟨rfl, (zeroAddress_rejected envNone envTime 0 0 7 anState0 scamState0 rfl).1,
   (zeroAddress_rejected envNone envTime 0 0 7 anState0 scamState0 rfl).2⟩
